import Mathlib

/-
Verification of the font-effects-generator composition and interaction engine.

The development shallowly embeds the core of the repository:

* src/src/utils/canvas.ts        -- the Compositor: drawImageToCanvas, drawText,
                                    renderComposition
* src/src/components/VisualCanvas.tsx -- the Interaction Controller: the live
                                    redraw (drawTextWithEffects), hit-testing
                                    (findTextBlockAtPosition), drag handling
                                    (handleMouseMove: move and resize branches),
                                    alignment guides (calculateAlignmentGuides)
* src/src/App.tsx                -- the stale-render guard in updateImage
* src/unnamed/part_002           -- handleTextBlockUpdate
* constants (font catalog)       -- the fonts table shipped with the app

Numbers are modelled by the rationals: the JavaScript code only performs
field operations, comparisons, Math.max / Math.min / Math.abs / Math.round
and Math.floor on them, all of which are exact on the inputs the claims
quantify over.  The one irrational operation, Math.sqrt in the resize branch,
is abstracted as an input (see resizeStep).  Canvas 2D side effects are
modelled by a trace of drawing commands, each command snapshotting the parts
of the context state (fill style, font, shadow) that determine the pixels it
produces.
-/

namespace FontFX

/-- CSS color values are plain strings. -/
abbrev Color := String

/-- An entry of the external font catalog (constants.ts, export const fonts). -/
structure Font where
  id : String
  name : String
  family : String
  weight : ℕ
  deriving Repr, DecidableEq

/-- The font catalog (constants.ts). -/
def fonts : List Font :=
  [ ⟨"noto-sans-tc-900", "思源黑體 (黑)", "Noto Sans TC", 900⟩,
    ⟨"taipei-sans-700", "台北黑體 (粗)", "Taipei Sans TC Beta", 700⟩,
    ⟨"noto-sans-tc-500", "思源黑體 (中)", "Noto Sans TC", 500⟩,
    ⟨"m-plus-rounded-1c-700", "圓體 (粗)", "M PLUS Rounded 1c", 700⟩,
    ⟨"hina-mincho", "日式明朝", "Hina Mincho", 400⟩,
    ⟨"jason-handwriting-1", "清松手寫體 v1", "Jason Handwriting 1", 400⟩,
    ⟨"jason-handwriting-2", "清松手寫體 v2", "Jason Handwriting 2", 400⟩,
    ⟨"rocknroll-one", "搖滾圓體", "RocknRoll One", 400⟩,
    ⟨"reggae-one", "雷鬼 Stencil", "Reggae One", 400⟩,
    ⟨"rampart-one", "立體裝甲", "Rampart One", 400⟩ ]

/-- One text layer (src/src/types.ts, interface TextBlock). -/
structure TextBlock where
  text : String
  fontId : String
  effectIds : List String
  color1 : Color
  color2 : Color
  fontSize : ℚ
  x : ℚ
  y : ℚ
  id : String
  type : String
  deriving Repr, DecidableEq

/-- The whitespace characters String.prototype.trim removes (the ASCII ones;
the test inputs of this development use no exotic Unicode whitespace). -/
def isJsWhitespace (c : Char) : Bool :=
  c == ' ' || c == '\t' || c == '\n' || c == '\r' || c == '\x0b' || c == '\x0c'

/-- JavaScript String.prototype.trim: drop leading and trailing whitespace. -/
def jsTrim (s : String) : String :=
  String.mk (((s.toList.dropWhile (fun c => isJsWhitespace c)).reverse.dropWhile
    (fun c => isJsWhitespace c)).reverse)

/-- The shadow part of the 2D context state (shadowColor, shadowBlur,
shadowOffsetX, shadowOffsetY). -/
structure Shadow where
  color : Color
  blur : ℚ
  offsetX : ℚ
  offsetY : ℚ
  deriving Repr, DecidableEq

/-- The context default: shadow disabled (the code also resets to this state). -/
def noShadow : Shadow := ⟨"transparent", 0, 0, 0⟩

/-- The font part of the context state, as the code assembles it:
ctx.font is a weight, a pixel size and a family. -/
structure FontSpec where
  weight : String
  size : ℚ
  family : String
  deriving Repr, DecidableEq

/-- A canvas drawing command together with the context state it is issued
under, i.e. everything that determines the pixels it touches. -/
inductive Cmd where
  | fillText (text : String) (x y : ℚ) (style : Color) (font : FontSpec) (shadow : Shadow)
  | strokeText (text : String) (x y : ℚ) (style : Color) (lineWidth : ℚ)
      (font : FontSpec) (shadow : Shadow)
  | drawImage (sx sy sWidth sHeight dx dy dWidth dHeight : ℚ)
  | clearRect (x y w h : ℚ)
  deriving Repr, DecidableEq

/-- Pixel dimensions of a loaded background image. -/
structure ImageDim where
  width : ℚ
  height : ℚ
  deriving Repr, DecidableEq

/-- The source rectangle of the center crop. -/
structure CropRect where
  sx : ℚ
  sy : ℚ
  sWidth : ℚ
  sHeight : ℚ
  deriving Repr, DecidableEq

/-- The center-crop computation of drawImageToCanvas
(src/src/utils/canvas.ts lines 4-21): pick the source rectangle sx, sy,
sWidth, sHeight from the image. -/
def centerCrop (canvasWidth canvasHeight imageWidth imageHeight : ℚ) : CropRect :=
  let canvasAspect := canvasWidth / canvasHeight
  let imageAspect := imageWidth / imageHeight
  if imageAspect > canvasAspect then
    let sHeight := imageHeight
    let sWidth := sHeight * canvasAspect
    ⟨(imageWidth - sWidth) / 2, 0, sWidth, sHeight⟩
  else
    let sWidth := imageWidth
    let sHeight := sWidth / canvasAspect
    ⟨0, (imageHeight - sHeight) / 2, sWidth, sHeight⟩

/-- drawImageToCanvas (src/src/utils/canvas.ts lines 4-23): draw the center
crop of the image so that it exactly fills the canvas. -/
def drawImageToCanvas (canvasWidth canvasHeight : ℚ) (image : ImageDim) : Cmd :=
  let c := centerCrop canvasWidth canvasHeight image.width image.height
  Cmd.drawImage c.sx c.sy c.sWidth c.sHeight 0 0 canvasWidth canvasHeight

/-- The font the Compositor renders a block with (canvas.ts lines 41-42):
weight 900 when the bold effect is active, the catalog weight otherwise. -/
def fontSpecOf (config : TextBlock) (fontObject : Font) : FontSpec :=
  ⟨if config.effectIds.contains ("bold") then "900" else toString fontObject.weight,
    config.fontSize, fontObject.family⟩

/-- The body of the drawText rendering pipeline
(src/src/utils/canvas.ts lines 32-139), reached once the text is non-blank
and the font reference resolved; the block carries x and y, so the
left-aligned top-baseline branch of the coordinate choice (lines 47-51)
applies.  The emitted commands follow the source order: faux-3d backs
(lines 69-75), outline stroke (96-102) under the shadow set up in lines
84-93, the main fill (105), the extra neon pass at blur 30 (108-111), and
the glitch passes after the shadow reset (120-133). -/
def drawTextResolved (config : TextBlock) (fontObject : Font) : List Cmd :=
  let effects := config.effectIds
  let font := fontSpecOf config fontObject
  let textX := config.x
  let textY := config.y
  let faux3dCmds :=
    if effects.contains ("faux-3d") then
      let depth : ℤ := max 1 ⌊config.fontSize / 30⌋
      (List.range depth.toNat).map (fun i =>
        Cmd.fillText config.text (textX + ((i : ℚ) + 1)) (textY + ((i : ℚ) + 1))
          config.color2 font noShadow)
    else []
  let fillStyle := if effects.contains ("neon") then "#FFFFFF" else config.color1
  let shadow :=
    if effects.contains ("neon") then Shadow.mk config.color1 15 0 0
    else if effects.contains ("shadow") then Shadow.mk config.color2 10 5 5
    else noShadow
  let outlineCmds :=
    if effects.contains ("outline") then
      [Cmd.strokeText config.text textX textY config.color2
        (max 2 (config.fontSize / 20)) font shadow]
    else []
  let mainFill := [Cmd.fillText config.text textX textY fillStyle font shadow]
  let neonCmds :=
    if effects.contains ("neon") then
      [Cmd.fillText config.text textX textY fillStyle font (Shadow.mk config.color1 30 0 0)]
    else []
  let glitchCmds :=
    if effects.contains ("glitch") then
      [Cmd.fillText config.text (textX - 5) textY "rgba(255, 0, 255, 0.5)" font noShadow,
       Cmd.fillText config.text (textX + 5) textY "rgba(0, 255, 255, 0.5)" font noShadow] ++
      (if effects.contains ("neon") then
        [Cmd.fillText config.text textX textY "#FFFFFF" font noShadow]
       else
        [Cmd.fillText config.text textX textY config.color1 font noShadow])
    else []
  faux3dCmds ++ outlineCmds ++ mainFill ++ neonCmds ++ glitchCmds

/-- drawText (src/src/utils/canvas.ts lines 25-140): nothing is drawn for
blank text (line 26) or an unresolved font reference (lines 29-30); otherwise
the pipeline body runs. -/
def drawText (config : TextBlock) : List Cmd :=
  if jsTrim config.text = "" then []
  else
    match fonts.find? (fun f => f.id == config.fontId) with
    | none => []
    | some fontObject => drawTextResolved config fontObject

/-- The drawing trace of renderComposition
(src/src/utils/canvas.ts lines 142-180) on the successful
context-acquisition path: clear the canvas, draw the background center crop
when a background reference is present and its image load succeeds (onload,
lines 167-170), skip it on load failure (onerror, lines 171-174), then draw
every text block in list order.  loaded is the outcome of the asynchronous
image load.  rng is the stream of Math.random() values the environment would
supply during the render; renderComposition and drawText contain no
Math.random call (the glitch pass at lines 120-133 uses the fixed offsets
textX - 5 and textX + 5), so the stream is never consumed. -/
def renderCompositionTrace (backgroundImage : Option String) (textBlocks : List TextBlock)
    (width height : ℚ) (loaded : Option ImageDim) (rng : List ℚ) : List Cmd :=
  let clear := [Cmd.clearRect 0 0 width height]
  let textCmds := textBlocks.flatMap drawText
  match backgroundImage with
  | some _ =>
    match loaded with
    | some img => clear ++ [drawImageToCanvas width height img] ++ textCmds
    | none => clear ++ textCmds
  | none => clear ++ textCmds

/-- The font resolution of the live redraw
(src/src/components/VisualCanvas.tsx lines 148-154 and 162-164): an
unresolved font id falls back to family Arial at weight 400, and the bold
effect replaces the weight by the keyword bold. -/
def liveFontSpec (textBlock : TextBlock) : FontSpec :=
  let font? := fonts.find? (fun f => f.id == textBlock.fontId)
  let fontFamily := match font? with | some f => f.family | none => "Arial"
  let fontWeight := match font? with | some f => toString f.weight | none => "400"
  if textBlock.effectIds.contains ("bold") then ⟨"bold", textBlock.fontSize, fontFamily⟩
  else ⟨fontWeight, textBlock.fontSize, fontFamily⟩

/-- The shadow state of the live renderer after its faux-3d pass
(VisualCanvas.tsx lines 167-183): the faux-3d effect leaves its last
offsets 9, 9 behind, since nothing resets them. -/
def liveShadowAfterFaux (textBlock : TextBlock) : Shadow :=
  if textBlock.effectIds.contains ("faux-3d") then Shadow.mk "rgba(0, 0, 0, 0.3)" 0 9 9
  else noShadow

/-- The shadow state the live renderer fills the main text under
(VisualCanvas.tsx lines 203-214): the shadow effect sets all four fields to
the fixed rgba(0, 0, 0, 0.5), 4, 2, 2; the neon effect then overrides only
color and blur. -/
def liveMainShadow (textBlock : TextBlock) : Shadow :=
  let shadow2 :=
    if textBlock.effectIds.contains ("shadow") then Shadow.mk "rgba(0, 0, 0, 0.5)" 4 2 2
    else liveShadowAfterFaux textBlock
  if textBlock.effectIds.contains ("neon") then
    Shadow.mk textBlock.color1 10 shadow2.offsetX shadow2.offsetY
  else shadow2

/-- The body of the live-canvas renderer drawTextWithEffects
(src/src/components/VisualCanvas.tsx lines 143-248), reached once the text
is non-blank.  rand1 and rand2 are the two Math.random() values the glitch
branch draws (lines 220-221).  The pipeline follows the source order:
faux-3d fills under a fixed rgba(0, 0, 0, 0.3) shadow at offsets 3, 6 and 9
(lines 167-183), four offset outline strokes (186-197), fillStyle set to
color1 (200), the shadow effect setting a fixed rgba(0, 0, 0, 0.5) shadow of
blur 4 and offset 2, 2 (203-208), the neon effect overriding shadow color
and blur only (211-214), and either the glitch passes followed by the normal
fill, or the normal fill alone (217-245). -/
def drawTextWithEffectsBody (textBlock : TextBlock) (rand1 rand2 : ℚ) : List Cmd :=
  let effects := textBlock.effectIds
  let font := liveFontSpec textBlock
  let x := textBlock.x
  let y := textBlock.y
  let shadow1 := liveShadowAfterFaux textBlock
  let faux3dCmds :=
    if effects.contains ("faux-3d") then
      [Cmd.fillText textBlock.text x y textBlock.color1 font (Shadow.mk "rgba(0, 0, 0, 0.3)" 0 3 3),
       Cmd.fillText textBlock.text x y textBlock.color1 font (Shadow.mk "rgba(0, 0, 0, 0.3)" 0 6 6),
       Cmd.fillText textBlock.text x y textBlock.color1 font (Shadow.mk "rgba(0, 0, 0, 0.3)" 0 9 9)]
    else []
  let outlineCmds :=
    if effects.contains ("outline") then
      [Cmd.strokeText textBlock.text (x - 1) (y - 1) textBlock.color2 4 font shadow1,
       Cmd.strokeText textBlock.text (x + 1) (y - 1) textBlock.color2 4 font shadow1,
       Cmd.strokeText textBlock.text (x - 1) (y + 1) textBlock.color2 4 font shadow1,
       Cmd.strokeText textBlock.text (x + 1) (y + 1) textBlock.color2 4 font shadow1]
    else []
  let shadow3 := liveMainShadow textBlock
  let glitchCmds :=
    if effects.contains ("glitch") then
      let glitchOffsetX := (rand1 - 1/2) * 8
      let glitchOffsetY := (rand2 - 1/2) * 8
      [Cmd.fillText textBlock.text (x + glitchOffsetX) (y + glitchOffsetY) "#ff0000" font shadow3,
       Cmd.fillText textBlock.text (x - glitchOffsetX) (y - glitchOffsetY) "#0000ff" font shadow3,
       Cmd.fillText textBlock.text (x + glitchOffsetX * (1/2)) (y - glitchOffsetY * (1/2))
         "#00ff00" font shadow3]
    else []
  faux3dCmds ++ outlineCmds ++ glitchCmds ++
    [Cmd.fillText textBlock.text x y textBlock.color1 font shadow3]

/-- drawTextWithEffects (src/src/components/VisualCanvas.tsx lines 143-248):
blank text draws nothing (line 144); otherwise the live pipeline body runs,
with an Arial fallback for unresolved fonts rather than a skip. -/
def drawTextWithEffects (textBlock : TextBlock) (rand1 rand2 : ℚ) : List Cmd :=
  if jsTrim textBlock.text = "" then []
  else drawTextWithEffectsBody textBlock rand1 rand2

/-- A point in canvas pixel space. -/
structure Point where
  x : ℚ
  y : ℚ
  deriving Repr, DecidableEq

/-- The fallback text-width heuristic of getTextWidth
(src/src/components/VisualCanvas.tsx lines 130-140): character count times
font size times 0.6.  The measuring path goes through ctx.measureText, an
environment quantity; functions that need a width take the measuring
function as a parameter, and this heuristic is its concrete stand-in. -/
def fallbackTextWidth (text : String) (fontSize : ℚ) : ℚ :=
  (text.length : ℚ) * fontSize * (6 / 10)

/-- The two drag modes (VisualCanvas.tsx line 28). -/
inductive DragMode where
  | move
  | resize
  deriving Repr, DecidableEq

/-- The result of a successful hit-test (VisualCanvas.tsx line 351). -/
structure HitResult where
  textBlock : TextBlock
  mode : DragMode
  deriving Repr, DecidableEq

/-- The loop body of findTextBlockAtPosition over the layers already put in
top-to-bottom order: skip blank layers, then check the 16 by 16 resize
handle anchored at the bottom-right corner of the approximate box before
the move region (src/src/components/VisualCanvas.tsx lines 353-375). -/
def findFrom (tw : String → ℚ → ℚ) (x y : ℚ) : List TextBlock → Option HitResult
  | [] => none
  | textBlock :: rest =>
    if jsTrim textBlock.text = "" then findFrom tw x y rest
    else
      let textWidth := tw textBlock.text textBlock.fontSize
      let textHeight := textBlock.fontSize
      let resizeHandleSize : ℚ := 16
      let resizeHandleX := textBlock.x + textWidth - resizeHandleSize
      let resizeHandleY := textBlock.y + textHeight - resizeHandleSize
      if resizeHandleX ≤ x ∧ x ≤ resizeHandleX + resizeHandleSize ∧
          resizeHandleY ≤ y ∧ y ≤ resizeHandleY + resizeHandleSize then
        some ⟨textBlock, DragMode.resize⟩
      else if textBlock.x ≤ x ∧ x ≤ textBlock.x + textWidth ∧
          textBlock.y ≤ y ∧ y ≤ textBlock.y + textHeight then
        some ⟨textBlock, DragMode.move⟩
      else findFrom tw x y rest

/-- findTextBlockAtPosition (src/src/components/VisualCanvas.tsx lines
351-377): iterate the layers from the last one (topmost) to the first.
tw is the text-measuring function (getTextWidth). -/
def findTextBlockAtPosition (tw : String → ℚ → ℚ) (textBlocks : List TextBlock)
    (x y : ℚ) : Option HitResult :=
  findFrom tw x y textBlocks.reverse

/-- The resize-handle region of a block: the fixed 16 by 16 square anchored
at the bottom-right corner of the approximate bounding box
(VisualCanvas.tsx lines 361-366). -/
abbrev inResizeHandle (tw : String → ℚ → ℚ) (textBlock : TextBlock) (x y : ℚ) : Prop :=
  let resizeHandleX := textBlock.x + tw textBlock.text textBlock.fontSize - 16
  let resizeHandleY := textBlock.y + textBlock.fontSize - 16
  resizeHandleX ≤ x ∧ x ≤ resizeHandleX + 16 ∧ resizeHandleY ≤ y ∧ y ≤ resizeHandleY + 16

/-- JavaScript Math.round: round half toward positive infinity. -/
def jsRound (q : ℚ) : ℚ := ((⌊q + 1 / 2⌋ : ℤ) : ℚ)

/-- The resize branch of handleMouseMove
(src/src/components/VisualCanvas.tsx lines 424-446): the committed update.
delta stands for the Euclidean drag distance
Math.sqrt(deltaX * deltaX + deltaY * deltaY) of line 434, the only
irrational quantity of the branch; every subsequent step (scale by 0.2, add
to the initial font size, clamp to 10..500, round) is embedded exactly. -/
def resizeStep (textBlock : TextBlock) (initialFontSize delta : ℚ) : TextBlock :=
  let scaleFactor : ℚ := 2 / 10
  let newFontSize := initialFontSize + delta * scaleFactor
  let clamped := max 10 (min 500 newFontSize)
  { textBlock with fontSize := jsRound clamped }

/-- The move branch of handleMouseMove
(src/src/components/VisualCanvas.tsx lines 448-475): the committed update,
with the position clamped by Math.max(0, Math.min(new, canvas - extent)). -/
def moveStep (tw : String → ℚ → ℚ) (textBlock : TextBlock) (coords dragOffset : Point)
    (canvasWidth canvasHeight : ℚ) : TextBlock :=
  let newX := coords.x - dragOffset.x
  let newY := coords.y - dragOffset.y
  let textWidth := tw textBlock.text textBlock.fontSize
  let textHeight := textBlock.fontSize
  let constrainedX := max 0 (min newX (canvasWidth - textWidth))
  let constrainedY := max 0 (min newY (canvasHeight - textHeight))
  { textBlock with x := constrainedX, y := constrainedY }

/-- The guide lists calculateAlignmentGuides returns
(VisualCanvas.tsx lines 31-34 and 322). -/
structure Guides where
  vertical : List ℚ
  horizontal : List ℚ
  deriving Repr, DecidableEq

/-- A conditional push: the singleton when the tolerance test passes. -/
def guardPush (cond : Prop) [Decidable cond] (v : ℚ) : List ℚ :=
  if cond then [v] else []

/-- The vertical pushes one other block contributes in
calculateAlignmentGuides (src/src/components/VisualCanvas.tsx lines
267-294): skipped for the dragged block itself and for blank blocks. -/
def blockVGuides (tw : String → ℚ → ℚ) (draggedBlock block : TextBlock) : List ℚ :=
  if block.id = draggedBlock.id ∨ jsTrim block.text = "" then []
  else
    let tolerance : ℚ := 5
    let draggedWidth := tw draggedBlock.text draggedBlock.fontSize
    let draggedLeft := draggedBlock.x
    let draggedRight := draggedBlock.x + draggedWidth
    let draggedCenterX := draggedBlock.x + draggedWidth / 2
    let blockWidth := tw block.text block.fontSize
    let blockLeft := block.x
    let blockRight := block.x + blockWidth
    let blockCenterX := block.x + blockWidth / 2
    guardPush (|draggedLeft - blockLeft| ≤ tolerance) blockLeft ++
    guardPush (|draggedRight - blockRight| ≤ tolerance) blockRight ++
    guardPush (|draggedCenterX - blockCenterX| ≤ tolerance) blockCenterX ++
    guardPush (|draggedLeft - blockRight| ≤ tolerance) blockRight ++
    guardPush (|draggedRight - blockLeft| ≤ tolerance) blockLeft

/-- The horizontal pushes one other block contributes in
calculateAlignmentGuides (src/src/components/VisualCanvas.tsx lines
267-312). -/
def blockHGuides (tw : String → ℚ → ℚ) (draggedBlock block : TextBlock) : List ℚ :=
  if block.id = draggedBlock.id ∨ jsTrim block.text = "" then []
  else
    let tolerance : ℚ := 5
    let draggedHeight := draggedBlock.fontSize
    let draggedTop := draggedBlock.y
    let draggedBottom := draggedBlock.y + draggedHeight
    let draggedCenterY := draggedBlock.y + draggedHeight / 2
    let blockHeight := block.fontSize
    let blockTop := block.y
    let blockBottom := block.y + blockHeight
    let blockCenterY := block.y + blockHeight / 2
    guardPush (|draggedTop - blockTop| ≤ tolerance) blockTop ++
    guardPush (|draggedBottom - blockBottom| ≤ tolerance) blockBottom ++
    guardPush (|draggedCenterY - blockCenterY| ≤ tolerance) blockCenterY ++
    guardPush (|draggedTop - blockBottom| ≤ tolerance) blockBottom ++
    guardPush (|draggedBottom - blockTop| ≤ tolerance) blockTop

/-- calculateAlignmentGuides (src/src/components/VisualCanvas.tsx lines
251-323): per-block pushes in list order, then the canvas-edge and
canvas-center checks of lines 314-320. -/
def calculateAlignmentGuides (tw : String → ℚ → ℚ) (draggedBlock : TextBlock)
    (otherBlocks : List TextBlock) (canvasWidth canvasHeight : ℚ) : Guides :=
  let tolerance : ℚ := 5
  let draggedWidth := tw draggedBlock.text draggedBlock.fontSize
  let draggedHeight := draggedBlock.fontSize
  let draggedLeft := draggedBlock.x
  let draggedRight := draggedBlock.x + draggedWidth
  let draggedTop := draggedBlock.y
  let draggedBottom := draggedBlock.y + draggedHeight
  let draggedCenterX := draggedBlock.x + draggedWidth / 2
  let draggedCenterY := draggedBlock.y + draggedHeight / 2
  let verticalGuides :=
    (otherBlocks.flatMap (blockVGuides tw draggedBlock)) ++
    guardPush (|draggedLeft| ≤ tolerance) 0 ++
    guardPush (|draggedRight - canvasWidth| ≤ tolerance) canvasWidth ++
    guardPush (|draggedCenterX - canvasWidth / 2| ≤ tolerance) (canvasWidth / 2)
  let horizontalGuides :=
    (otherBlocks.flatMap (blockHGuides tw draggedBlock)) ++
    guardPush (|draggedTop| ≤ tolerance) 0 ++
    guardPush (|draggedBottom - canvasHeight| ≤ tolerance) canvasHeight ++
    guardPush (|draggedCenterY - canvasHeight / 2| ≤ tolerance) (canvasHeight / 2)
  ⟨verticalGuides, horizontalGuides⟩

/-- handleTextBlockUpdate (src/unnamed/part_002 lines 111-115): replace the
block whose id matches the update, keep every other element. -/
def handleTextBlockUpdate (prev : List TextBlock) (updatedTextBlock : TextBlock) :
    List TextBlock :=
  prev.map (fun tb => if tb.id = updatedTextBlock.id then updatedTextBlock else tb)

/-- The state of the render controller of App.tsx: renderRef.current
(line 35) and the identity of the render whose data URL the displayed
outputImage came from (none before any commit). -/
structure RenderState where
  renderRef : ℕ
  outputImage : Option ℕ
  deriving Repr, DecidableEq

/-- The two event kinds of updateImage (src/src/App.tsx lines 41-49): issue
is the synchronous prefix (renderId = ++renderRef.current, line 42), and
complete renderId is the resumption after await renderComposition, which
commits the data URL only when renderId still equals renderRef.current
(lines 46-48). -/
inductive RenderAction where
  | issue
  | complete (renderId : ℕ)
  deriving Repr, DecidableEq

/-- One step of the render controller. -/
def renderStep (s : RenderState) : RenderAction → RenderState
  | RenderAction.issue => { s with renderRef := s.renderRef + 1 }
  | RenderAction.complete renderId =>
    if renderId = s.renderRef then { s with outputImage := some renderId } else s

/-- Run a sequence of render-controller events. -/
def renderRun (s : RenderState) : List RenderAction → RenderState
  | [] => s
  | a :: rest => renderRun (renderStep s a) rest

/-! ## Concrete instances used by counterexamples and witnesses -/

/-- A block whose heuristic width 5 * 100 * 0.6 = 300 exceeds a 200-wide
canvas. -/
def wideBlock : TextBlock :=
  ⟨"AAAAA", "hina-mincho", [], "#FFFFFF", "#000000", 100, 0, 0, "main", "main"⟩

/-- A lower layer; its heuristic box is 0..120 by 0..40, so its resize
handle square is 104..120 by 24..40. -/
def bottomBlock : TextBlock :=
  ⟨"HELLO", "hina-mincho", [], "#FFFFFF", "#000000", 40, 0, 0, "main", "main"⟩

/-- A higher layer whose move box 100..220 by 20..60 covers the point
(110, 30) inside bottomBlock's handle square. -/
def topBlock : TextBlock :=
  ⟨"HELLO", "hina-mincho", [], "#FFFFFF", "#000000", 40, 100, 20, "sub1", "sub1"⟩

/-- The layer of the spec's worked example: content Hi, the shadow effect,
white on black, font size 120, position (100, 100). -/
def shadowBlock : TextBlock :=
  ⟨"Hi", "noto-sans-tc-900", ["shadow"], "#FFFFFF", "#000000", 120, 100, 100, "main", "main"⟩

/-- A block whose fontId resolves to no catalog entry. -/
def noFontBlock : TextBlock :=
  ⟨"Hi", "missing-font", [], "#FFFFFF", "#000000", 40, 10, 20, "sub1", "sub1"⟩

/-- A dragged block whose bounding-box left edge sits exactly on the
vertical center line of a 200-wide canvas (x = 100), while its center
x = 100 + 60 / 2 = 130 is 30 px away from that line. -/
def leftEdgeBlock : TextBlock :=
  ⟨"AAAA", "hina-mincho", [], "#FFFFFF", "#000000", 25, 100, 50, "main", "main"⟩

/-! ## Helper lemmas -/

/-- Membership in a conditional push. -/
lemma mem_guardPush (c : Prop) [Decidable c] (v w : ℚ) : w ∈ guardPush c v ↔ c ∧ w = v := by
  unfold guardPush
  split_ifs with h <;> simp [h]

/-- Bounds survive JavaScript rounding: a value in 10..500 rounds to a
value in 10..500. -/
lemma jsRound_bounds (t : ℚ) (h1 : 10 ≤ t) (h2 : t ≤ 500) :
    10 ≤ jsRound t ∧ jsRound t ≤ 500 := by
  unfold jsRound
  constructor
  · have : (10 : ℤ) ≤ ⌊t + 1 / 2⌋ := Int.le_floor.mpr (by push_cast; linarith)
    exact_mod_cast this
  · have : ⌊t + 1 / 2⌋ < (501 : ℤ) := Int.floor_lt.mpr (by push_cast; linarith)
    have h3 : ⌊t + 1 / 2⌋ ≤ (500 : ℤ) := by omega
    exact_mod_cast h3

/-- A move-mode hit on a layer means the point missed that layer's resize
handle: the handle square is tested first for each candidate. -/
lemma findFrom_move_not_handle (tw : String → ℚ → ℚ) (x y : ℚ) :
    ∀ (l : List TextBlock) (L : TextBlock),
      findFrom tw x y l = some ⟨L, DragMode.move⟩ → ¬ inResizeHandle tw L x y := by
  intro l
  induction l with
  | nil => intro L hr; simp [findFrom] at hr
  | cons tb rest ih =>
    intro L hr
    simp only [findFrom] at hr
    split_ifs at hr with h1 h2 h3
    · exact ih L hr
    · simp at hr
    · have hL : tb = L := by
        have := Option.some_injective _ hr
        cases this
        rfl
      subst hL
      simpa [inResizeHandle] using h2
    · exact ih L hr

/-- renderRef never decreases and a stale id can never be committed once a
larger id has been issued. -/
lemma renderRun_no_stale_commit (a b : ℕ) (hab : a < b) :
    ∀ (acts : List RenderAction) (s : RenderState), b ≤ s.renderRef →
      s.outputImage ≠ some a →
      b ≤ (renderRun s acts).renderRef ∧ (renderRun s acts).outputImage ≠ some a := by
  intro acts
  induction acts with
  | nil => intro s h1 h2; exact ⟨h1, h2⟩
  | cons ac rest ih =>
    intro s h1 h2
    have hstep : b ≤ (renderStep s ac).renderRef ∧ (renderStep s ac).outputImage ≠ some a := by
      cases ac with
      | issue => exact ⟨Nat.le_succ_of_le h1, h2⟩
      | complete r =>
        by_cases hr : r = s.renderRef
        · refine ⟨by simpa [renderStep, hr] using h1, ?_⟩
          simp only [renderStep, hr, if_pos rfl]
          intro hcontr
          have : s.renderRef = a := by simpa using hcontr
          omega
        · simpa [renderStep, hr] using ⟨h1, h2⟩
    simpa [renderRun] using ih (renderStep s ac) hstep.1 hstep.2

/-- A hit returned by the hit-test loop always has non-blank text. -/
lemma findFrom_trim_ne (tw : String → ℚ → ℚ) (x y : ℚ) :
    ∀ (l : List TextBlock) (r : HitResult), findFrom tw x y l = some r →
      jsTrim r.textBlock.text ≠ "" := by
  intro l
  induction l with
  | nil => intro r hr; simp [findFrom] at hr
  | cons tb rest ih =>
    intro r hr
    simp only [findFrom] at hr
    split_ifs at hr with h1 h2 h3
    · exact ih r hr
    · cases hr; simpa using h1
    · cases hr; simpa using h1
    · exact ih r hr

/-! ## Claims -/

/-- C2: updateImage tags every render request with the incremented value of
the sequence counter renderRef and commits a completed data URL only when
its tag still equals the counter; hence once a later request b has been
issued, no sequence of further events can make the output reflect the
earlier request a, and when a and b both complete, in either order, the
output reflects b. -/
theorem c2_stale_render_guard (a b : ℕ) (hab : a < b) (s : RenderState)
    (hb : b ≤ s.renderRef) (hout : s.outputImage ≠ some a) :
    (∀ acts : List RenderAction, (renderRun s acts).outputImage ≠ some a) ∧
    (∀ t : RenderState, t.renderRef = b →
      (renderRun t [RenderAction.complete a, RenderAction.complete b]).outputImage = some b ∧
      (renderRun t [RenderAction.complete b, RenderAction.complete a]).outputImage = some b) := by
  constructor
  · intro acts
    exact (renderRun_no_stale_commit a b hab acts s hb hout).2
  · intro t ht
    have hne : a ≠ b := Nat.ne_of_lt hab
    constructor
    · simp [renderRun, renderStep, ht, hne]
    · simp [renderRun, renderStep, ht, hne]

/-- C2 witness: with requests 1 and 2 issued (counter at 2) and request 1
completing afterwards, the output never reflects request 1. -/
theorem c2_stale_render_guard_witness :
    (renderRun ⟨2, none⟩ [RenderAction.complete 1]).outputImage ≠ some 1 :=
  (c2_stale_render_guard 1 2 (by decide) ⟨2, none⟩ (by decide) (by decide)).1
    [RenderAction.complete 1]

/-- C3: a layer whose text is empty or whitespace-only is drawn as nothing
by the Compositor (drawText emits no command) and is never the result of
the hit-test findTextBlockAtPosition, whatever the layer list, the
measuring function and the query point. -/
theorem c3_blank_layer_skipped (textBlock : TextBlock) (h : jsTrim textBlock.text = "")
    (tw : String → ℚ → ℚ) (blocks : List TextBlock) (x y : ℚ) (m : DragMode) :
    drawText textBlock = [] ∧
    findTextBlockAtPosition tw blocks x y ≠ some ⟨textBlock, m⟩ := by
  constructor
  · simp [drawText, h]
  · intro hcontr
    exact findFrom_trim_ne tw x y blocks.reverse ⟨textBlock, m⟩ hcontr h

/-- C3 witness: a concrete whitespace-only layer, at a query point inside
the region its box would occupy, draws nothing and is not hit. -/
theorem c3_blank_layer_skipped_witness :
    drawText ⟨"  ", "hina-mincho", [], "#FFFFFF", "#000000", 40, 0, 0, "main", "main"⟩ = [] ∧
    findTextBlockAtPosition (fun _ _ => 48)
      [⟨"  ", "hina-mincho", [], "#FFFFFF", "#000000", 40, 0, 0, "main", "main"⟩] 10 10 ≠
      some ⟨⟨"  ", "hina-mincho", [], "#FFFFFF", "#000000", 40, 0, 0, "main", "main"⟩,
        DragMode.move⟩ :=
  c3_blank_layer_skipped
    ⟨"  ", "hina-mincho", [], "#FFFFFF", "#000000", 40, 0, 0, "main", "main"⟩
    (by decide) (fun _ _ => 48)
    [⟨"  ", "hina-mincho", [], "#FFFFFF", "#000000", 40, 0, 0, "main", "main"⟩] 10 10
    DragMode.move

/-- C5: the background center crop keeps the canvas aspect ratio, crops
only the longer axis (full height kept when the image is proportionally
wider than the canvas, full width otherwise), centers the cropped axis, and
is drawn onto exactly the destination rectangle 0, 0, canvasWidth,
canvasHeight. -/
theorem c5_center_crop (canvasW canvasH iw ih : ℚ) (hW : 0 < canvasW) (hH : 0 < canvasH)
    (hiw : 0 < iw) (hih : 0 < ih) :
    (centerCrop canvasW canvasH iw ih).sWidth / (centerCrop canvasW canvasH iw ih).sHeight =
      canvasW / canvasH ∧
    0 < (centerCrop canvasW canvasH iw ih).sWidth ∧
    (centerCrop canvasW canvasH iw ih).sWidth ≤ iw ∧
    0 < (centerCrop canvasW canvasH iw ih).sHeight ∧
    (centerCrop canvasW canvasH iw ih).sHeight ≤ ih ∧
    (iw / ih > canvasW / canvasH →
      (centerCrop canvasW canvasH iw ih).sHeight = ih ∧
      (centerCrop canvasW canvasH iw ih).sx =
        (iw - (centerCrop canvasW canvasH iw ih).sWidth) / 2 ∧
      (centerCrop canvasW canvasH iw ih).sy = 0) ∧
    (¬ iw / ih > canvasW / canvasH →
      (centerCrop canvasW canvasH iw ih).sWidth = iw ∧
      (centerCrop canvasW canvasH iw ih).sy =
        (ih - (centerCrop canvasW canvasH iw ih).sHeight) / 2 ∧
      (centerCrop canvasW canvasH iw ih).sx = 0) ∧
    drawImageToCanvas canvasW canvasH ⟨iw, ih⟩ =
      Cmd.drawImage (centerCrop canvasW canvasH iw ih).sx
        (centerCrop canvasW canvasH iw ih).sy
        (centerCrop canvasW canvasH iw ih).sWidth
        (centerCrop canvasW canvasH iw ih).sHeight 0 0 canvasW canvasH := by
  have hWH : 0 < canvasW / canvasH := div_pos hW hH
  by_cases hc : iw / ih > canvasW / canvasH
  · have hiwih : ih * (iw / ih) = iw := by field_simp
    have hlt : ih * (canvasW / canvasH) < iw := by
      have h3 : ih * (canvasW / canvasH) < ih * (iw / ih) := (mul_lt_mul_left hih).mpr hc
      linarith
    have h1 : (centerCrop canvasW canvasH iw ih).sWidth = ih * (canvasW / canvasH) := by
      simp only [centerCrop, if_pos hc]
    have h2 : (centerCrop canvasW canvasH iw ih).sHeight = ih := by
      simp only [centerCrop, if_pos hc]
    have h3 : (centerCrop canvasW canvasH iw ih).sx = (iw - ih * (canvasW / canvasH)) / 2 := by
      simp only [centerCrop, if_pos hc]
    have h4 : (centerCrop canvasW canvasH iw ih).sy = 0 := by
      simp only [centerCrop, if_pos hc]
    refine ⟨?_, ?_, ?_, ?_, ?_, ?_, ?_, rfl⟩
    · rw [h1, h2]; exact mul_div_cancel_left₀ _ (ne_of_gt hih)
    · rw [h1]; positivity
    · rw [h1]; exact le_of_lt hlt
    · rw [h2]; exact hih
    · exact le_of_eq h2
    · intro _; exact ⟨h2, by rw [h3, h1], h4⟩
    · intro hcontr; exact absurd hc hcontr
  · have hle : iw / ih ≤ canvasW / canvasH := le_of_not_lt hc
    have hiwih : iw / ih * ih = iw := by field_simp
    have hup : iw ≤ ih * (canvasW / canvasH) := by
      have h3 : iw / ih * ih ≤ canvasW / canvasH * ih :=
        mul_le_mul_of_nonneg_right hle (le_of_lt hih)
      rw [hiwih] at h3
      linarith [h3]
    have h1 : (centerCrop canvasW canvasH iw ih).sWidth = iw := by
      simp only [centerCrop, if_neg hc]
    have h2 : (centerCrop canvasW canvasH iw ih).sHeight = iw / (canvasW / canvasH) := by
      simp only [centerCrop, if_neg hc]
    have h3 : (centerCrop canvasW canvasH iw ih).sx = 0 := by
      simp only [centerCrop, if_neg hc]
    have h4 : (centerCrop canvasW canvasH iw ih).sy = (ih - iw / (canvasW / canvasH)) / 2 := by
      simp only [centerCrop, if_neg hc]
    refine ⟨?_, ?_, ?_, ?_, ?_, ?_, ?_, rfl⟩
    · rw [h1, h2, div_div_eq_mul_div]
      exact mul_div_cancel_left₀ _ (ne_of_gt hiw)
    · rw [h1]; exact hiw
    · exact le_of_eq h1
    · rw [h2]; exact div_pos hiw hWH
    · rw [h2, div_le_iff₀ hWH]
      linarith
    · intro hcontr; exact absurd hcontr hc
    · intro _; exact ⟨h1, by rw [h4, h2], h3⟩

/-- C5 witness: a 2000 by 1000 image center-cropped for a 1080 by 1080
canvas keeps the aspect ratio, crops only the width and centers it. -/
theorem c5_center_crop_witness :
    (centerCrop 1080 1080 2000 1000).sWidth / (centerCrop 1080 1080 2000 1000).sHeight =
      (1080 : ℚ) / 1080 ∧
    0 < (centerCrop 1080 1080 2000 1000).sWidth ∧
    (centerCrop 1080 1080 2000 1000).sWidth ≤ 2000 ∧
    0 < (centerCrop 1080 1080 2000 1000).sHeight ∧
    (centerCrop 1080 1080 2000 1000).sHeight ≤ 1000 ∧
    ((2000 : ℚ) / 1000 > (1080 : ℚ) / 1080 →
      (centerCrop 1080 1080 2000 1000).sHeight = 1000 ∧
      (centerCrop 1080 1080 2000 1000).sx =
        (2000 - (centerCrop 1080 1080 2000 1000).sWidth) / 2 ∧
      (centerCrop 1080 1080 2000 1000).sy = 0) ∧
    (¬ (2000 : ℚ) / 1000 > (1080 : ℚ) / 1080 →
      (centerCrop 1080 1080 2000 1000).sWidth = 2000 ∧
      (centerCrop 1080 1080 2000 1000).sy =
        (1000 - (centerCrop 1080 1080 2000 1000).sHeight) / 2 ∧
      (centerCrop 1080 1080 2000 1000).sx = 0) ∧
    drawImageToCanvas 1080 1080 ⟨2000, 1000⟩ =
      Cmd.drawImage (centerCrop 1080 1080 2000 1000).sx
        (centerCrop 1080 1080 2000 1000).sy
        (centerCrop 1080 1080 2000 1000).sWidth
        (centerCrop 1080 1080 2000 1000).sHeight 0 0 1080 1080 :=
  c5_center_crop 1080 1080 2000 1000 (by decide) (by decide) (by decide) (by decide)

/-- C1 counterexample: when the heuristic text width (5 characters at font
size 100, width 5 * 100 * 0.6 = 300) exceeds the 200-wide canvas, the move
clamp Math.max(0, Math.min(newX, canvasWidth - textWidth)) commits x = 0,
which violates the claimed bound x ≤ canvasWidth - approxWidth = -100, so
the bounding box does not stay within the canvas. -/
theorem c1_counterexample :
    (moveStep fallbackTextWidth wideBlock ⟨50, 50⟩ ⟨0, 0⟩ 200 200).x = 0 ∧
    ¬ ((moveStep fallbackTextWidth wideBlock ⟨50, 50⟩ ⟨0, 0⟩ 200 200).x ≤
        200 - fallbackTextWidth wideBlock.text wideBlock.fontSize) := by
  have hlen : ("AAAAA").length = 5 := by decide
  constructor
  · norm_num [moveStep, fallbackTextWidth, wideBlock, hlen, min_def, max_def]
  · norm_num [moveStep, fallbackTextWidth, wideBlock, hlen, min_def, max_def]

/-- C1 (amended): provided the approximate bounding box fits the canvas
(heuristic width at most canvasWidth and font size at most canvasHeight),
every pointer-move committed in Move mode satisfies
0 ≤ x ≤ canvasWidth - width and 0 ≤ y ≤ canvasHeight - fontSize — in
general the committed position is only the clamp
max(0, min(new, canvas - extent)), which leaves the box sticking out when it
is larger than the canvas — and every pointer-move committed in Resize mode
yields a font size within the configured bounds 10 and 500. -/
theorem c1_clamp_amended (tw : String → ℚ → ℚ) (textBlock : TextBlock)
    (coords dragOffset : Point) (canvasWidth canvasHeight initialFontSize delta : ℚ)
    (hw : tw textBlock.text textBlock.fontSize ≤ canvasWidth)
    (hh : textBlock.fontSize ≤ canvasHeight) :
    (0 ≤ (moveStep tw textBlock coords dragOffset canvasWidth canvasHeight).x ∧
     (moveStep tw textBlock coords dragOffset canvasWidth canvasHeight).x ≤
       canvasWidth - tw textBlock.text textBlock.fontSize ∧
     0 ≤ (moveStep tw textBlock coords dragOffset canvasWidth canvasHeight).y ∧
     (moveStep tw textBlock coords dragOffset canvasWidth canvasHeight).y ≤
       canvasHeight - textBlock.fontSize) ∧
    (10 ≤ (resizeStep textBlock initialFontSize delta).fontSize ∧
     (resizeStep textBlock initialFontSize delta).fontSize ≤ 500) := by
  constructor
  · simp only [moveStep]
    refine ⟨le_max_left 0 _, ?_, le_max_left 0 _, ?_⟩
    · exact max_le (sub_nonneg.mpr hw) (min_le_right _ _)
    · exact max_le (sub_nonneg.mpr hh) (min_le_right _ _)
  · simp only [resizeStep]
    exact jsRound_bounds _ (le_max_left 10 _)
      (max_le (by norm_num) (min_le_left 500 _))

/-- C1 witness: a fitting block (measured width 120, font size 100) on a
200 by 200 canvas is clamped inside the canvas, and a resize drag of
Euclidean distance 3000 is clamped into 10..500. -/
theorem c1_clamp_amended_witness :
    (0 ≤ (moveStep (fun _ _ => 120) wideBlock ⟨50, 50⟩ ⟨0, 0⟩ 200 200).x ∧
     (moveStep (fun _ _ => 120) wideBlock ⟨50, 50⟩ ⟨0, 0⟩ 200 200).x ≤
       200 - (fun (_ : String) (_ : ℚ) => (120 : ℚ)) wideBlock.text wideBlock.fontSize ∧
     0 ≤ (moveStep (fun _ _ => 120) wideBlock ⟨50, 50⟩ ⟨0, 0⟩ 200 200).y ∧
     (moveStep (fun _ _ => 120) wideBlock ⟨50, 50⟩ ⟨0, 0⟩ 200 200).y ≤
       200 - wideBlock.fontSize) ∧
    (10 ≤ (resizeStep wideBlock 100 3000).fontSize ∧
     (resizeStep wideBlock 100 3000).fontSize ≤ 500) :=
  c1_clamp_amended (fun _ _ => 120) wideBlock ⟨50, 50⟩ ⟨0, 0⟩ 200 200 100 3000
    (by decide) (by decide)

/-- C4 counterexample: the point (110, 30) lies inside the 16 by 16 resize
handle of the non-empty lower layer bottomBlock, yet the hit-test returns
the overlapping higher layer topBlock in Move mode, not bottomBlock in
Resize mode: the topmost-first iteration wins before the lower layer's
handle is ever examined. -/
theorem c4_counterexample :
    inResizeHandle fallbackTextWidth bottomBlock 110 30 ∧
    jsTrim bottomBlock.text ≠ "" ∧
    findTextBlockAtPosition fallbackTextWidth [bottomBlock, topBlock] 110 30 =
      some ⟨topBlock, DragMode.move⟩ ∧
    findTextBlockAtPosition fallbackTextWidth [bottomBlock, topBlock] 110 30 ≠
      some ⟨bottomBlock, DragMode.resize⟩ := by
  have h : (jsTrim "HELLO" = "") = False := by
    simp only [eq_iff_iff, iff_false]
    decide
  have hlen : ("HELLO").length = 5 := by decide
  refine ⟨?_, by decide, ?_, ?_⟩
  · norm_num [inResizeHandle, bottomBlock, fallbackTextWidth, hlen]
  · norm_num [findTextBlockAtPosition, findFrom, bottomBlock, topBlock,
      fallbackTextWidth, h, hlen]
  · norm_num [findTextBlockAtPosition, findFrom, bottomBlock, topBlock,
      fallbackTextWidth, h, hlen, topBlock, DragMode]

/-- C4 (amended): for each candidate layer the handle square is tested
before the move region, so the hit-test can return a layer in Move mode
only when the point missed that layer's handle square; in particular, for a
single-layer list, a pointer-down inside the non-empty layer's handle
square returns that layer in Resize mode.  (A higher overlapping layer can
still capture the point first, as the counterexample shows.) -/
theorem c4_handle_priority_amended (tw : String → ℚ → ℚ) (blocks : List TextBlock)
    (x y : ℚ) (L : TextBlock)
    (h1 : jsTrim L.text ≠ "") (h2 : inResizeHandle tw L x y) :
    findTextBlockAtPosition tw blocks x y ≠ some ⟨L, DragMode.move⟩ ∧
    findTextBlockAtPosition tw [L] x y = some ⟨L, DragMode.resize⟩ := by
  constructor
  · intro hcontr
    exact findFrom_move_not_handle tw x y blocks.reverse L hcontr h2
  · show findFrom tw x y [L] = some ⟨L, DragMode.resize⟩
    simp only [findFrom]
    rw [if_neg h1]
    exact if_pos (by simpa [inResizeHandle] using h2)

/-- C4 witness: alone in the list, bottomBlock is hit in Resize mode at
the point (110, 30) inside its handle square. -/
theorem c4_handle_priority_amended_witness :
    findTextBlockAtPosition fallbackTextWidth [bottomBlock] 110 30 ≠
      some ⟨bottomBlock, DragMode.move⟩ ∧
    findTextBlockAtPosition fallbackTextWidth [bottomBlock] 110 30 =
      some ⟨bottomBlock, DragMode.resize⟩ :=
  c4_handle_priority_amended fallbackTextWidth [bottomBlock] 110 30 bottomBlock
    (by decide)
    (by
      have hlen : ("HELLO").length = 5 := by decide
      norm_num [inResizeHandle, bottomBlock, fallbackTextWidth, hlen])

/-- C6 counterexample: the spec's own example layer (shadow active, neon
not), rendered by the Interaction Controller's live pipeline
drawTextWithEffects, is filled under the fixed shadow
rgba(0, 0, 0, 0.5) with blur 4 and offset (2, 2) — not under a
secondaryColor shadow with blur 10 and offset (5, 5) as claimed for every
rendered layer. -/
theorem c6_counterexample :
    drawTextWithEffects shadowBlock 0 0 =
      [Cmd.fillText "Hi" 100 100 "#FFFFFF" ⟨"900", 120, "Noto Sans TC"⟩
        ⟨"rgba(0, 0, 0, 0.5)", 4, 2, 2⟩] ∧
    Shadow.mk "rgba(0, 0, 0, 0.5)" 4 2 2 ≠ Shadow.mk shadowBlock.color2 10 5 5 := by
  constructor
  · decide
  · decide

/-- C6 (amended): in the Compositor's drawText the claim holds: with shadow
active and neon inactive the main text fill is drawn under the shadow
(secondaryColor, blur 10, offset (5, 5)), and with neon active the shadow
effect's settings are not applied — the main fill is drawn under the neon
glow (primaryColor, blur 15, no offset) instead.  The live renderer
drawTextWithEffects deviates: there the main fill of a shadow-and-not-neon
layer is drawn under the fixed shadow rgba(0, 0, 0, 0.5), blur 4, offset
(2, 2). -/
theorem c6_shadow_amended (config : TextBlock) (fontObject : Font) (rand1 rand2 : ℚ)
    (hf : fonts.find? (fun f => f.id == config.fontId) = some fontObject)
    (ht : jsTrim config.text ≠ "") :
    (config.effectIds.contains ("shadow") = true →
     config.effectIds.contains ("neon") = false →
      Cmd.fillText config.text config.x config.y config.color1
        (fontSpecOf config fontObject) ⟨config.color2, 10, 5, 5⟩ ∈ drawText config) ∧
    (config.effectIds.contains ("neon") = true →
      Cmd.fillText config.text config.x config.y "#FFFFFF"
        (fontSpecOf config fontObject) ⟨config.color1, 15, 0, 0⟩ ∈ drawText config) ∧
    (config.effectIds.contains ("shadow") = true →
     config.effectIds.contains ("neon") = false →
      Cmd.fillText config.text config.x config.y config.color1 (liveFontSpec config)
        ⟨"rgba(0, 0, 0, 0.5)", 4, 2, 2⟩ ∈ drawTextWithEffects config rand1 rand2) := by
  have hdt : drawText config = drawTextResolved config fontObject := by
    rw [drawText, if_neg ht, hf]
  refine ⟨?_, ?_, ?_⟩
  · intro hs hn
    have hs2 : "shadow" ∈ config.effectIds := by simpa using hs
    have hn2 : "neon" ∉ config.effectIds := by simpa using hn
    rw [hdt]
    simp [drawTextResolved, hs2, hn2]
  · intro hn
    have hn2 : "neon" ∈ config.effectIds := by simpa using hn
    rw [hdt]
    simp [drawTextResolved, hn2]
  · intro hs hn
    have hs2 : "shadow" ∈ config.effectIds := by simpa using hs
    have hn2 : "neon" ∉ config.effectIds := by simpa using hn
    rw [drawTextWithEffects, if_neg ht]
    simp [drawTextWithEffectsBody, liveMainShadow, liveShadowAfterFaux, hs2, hn2]

/-- C6 witness: the spec's example layer gets the claimed (color2, 10,
5, 5) shadow on its main fill in the Compositor. -/
theorem c6_shadow_amended_witness :
    Cmd.fillText shadowBlock.text shadowBlock.x shadowBlock.y shadowBlock.color1
      (fontSpecOf shadowBlock ⟨"noto-sans-tc-900", "思源黑體 (黑)", "Noto Sans TC", 900⟩)
      ⟨shadowBlock.color2, 10, 5, 5⟩ ∈ drawText shadowBlock :=
  (c6_shadow_amended shadowBlock ⟨"noto-sans-tc-900", "思源黑體 (黑)", "Noto Sans TC", 900⟩ 0 0
    (by decide) (by decide)).1 (by decide) (by decide)

/-- C7 counterexample: a non-empty layer whose fontId resolves to no
catalog entry is not skipped by the live redraw: drawTextWithEffects still
fills its text, substituting the fallback font Arial — contradicting the
claim that such a layer is skipped entirely in both renderers. -/
theorem c7_counterexample :
    drawTextWithEffects noFontBlock 0 0 =
      [Cmd.fillText "Hi" 10 20 "#FFFFFF" ⟨"400", 40, "Arial"⟩ noShadow] ∧
    drawTextWithEffects noFontBlock 0 0 ≠ [] := by
  constructor
  · decide
  · decide

/-- C7 (amended): a layer with an unresolved fontRef is skipped by the
Compositor (drawText emits nothing), but the Interaction Controller's live
redraw renders it anyway with the substitute font family Arial (weight 400,
or bold when the bold effect is active): its trace contains a fill of the
layer's text and is non-empty. -/
theorem c7_unresolved_font_amended (config : TextBlock) (rand1 rand2 : ℚ)
    (hf : fonts.find? (fun f => f.id == config.fontId) = none)
    (ht : jsTrim config.text ≠ "") :
    drawText config = [] ∧
    (liveFontSpec config).family = "Arial" ∧
    ((liveFontSpec config).weight = "400" ∨ (liveFontSpec config).weight = "bold") ∧
    (∃ sh : Shadow,
      Cmd.fillText config.text config.x config.y config.color1 (liveFontSpec config) sh ∈
        drawTextWithEffects config rand1 rand2) ∧
    drawTextWithEffects config rand1 rand2 ≠ [] := by
  have hmem : ∃ sh : Shadow,
      Cmd.fillText config.text config.x config.y config.color1 (liveFontSpec config) sh ∈
        drawTextWithEffects config rand1 rand2 := by
    rw [drawTextWithEffects, if_neg ht]
    refine ⟨liveMainShadow config, ?_⟩
    simp [drawTextWithEffectsBody]
  refine ⟨?_, ?_, ?_, hmem, ?_⟩
  · rw [drawText, if_neg ht, hf]
  · rw [liveFontSpec, hf]
    split_ifs <;> rfl
  · rw [liveFontSpec, hf]
    split_ifs
    · right; rfl
    · left; rfl
  · obtain ⟨sh, hsh⟩ := hmem
    exact List.ne_nil_of_mem hsh

/-- C7 witness: the concrete unresolved-font layer draws nothing in the
Compositor yet renders with Arial in the live redraw. -/
theorem c7_unresolved_font_amended_witness :
    drawText noFontBlock = [] ∧
    (liveFontSpec noFontBlock).family = "Arial" ∧
    ((liveFontSpec noFontBlock).weight = "400" ∨ (liveFontSpec noFontBlock).weight = "bold") ∧
    (∃ sh : Shadow,
      Cmd.fillText noFontBlock.text noFontBlock.x noFontBlock.y noFontBlock.color1
        (liveFontSpec noFontBlock) sh ∈ drawTextWithEffects noFontBlock 0 0) ∧
    drawTextWithEffects noFontBlock 0 0 ≠ [] :=
  c7_unresolved_font_amended noFontBlock 0 0 (by decide) (by decide)

/-- C8 counterexample: dragging a block whose bounding-box left edge lies
exactly on the vertical center line of a 200-wide canvas (x = 100 =
canvasWidth / 2, well within the 5 px tolerance) produces no vertical guide
at the midpoint: the code compares the dragged box's center, which is 30 px
away, not its left edge. -/
theorem c8_counterexample :
    |leftEdgeBlock.x - 200 / 2| ≤ 5 ∧
    ((200 : ℚ) / 2) ∉
      (calculateAlignmentGuides fallbackTextWidth leftEdgeBlock [leftEdgeBlock]
        200 200).vertical := by
  have hlen : ("AAAA").length = 4 := by decide
  constructor
  · norm_num [leftEdgeBlock]
  · norm_num [calculateAlignmentGuides, blockVGuides, guardPush, leftEdgeBlock,
      fallbackTextWidth, hlen]

/-- C8 (amended): while dragging a layer in Move mode with no other
non-empty layer, the vertical guide at the canvas horizontal midpoint is
present exactly when the dragged box's center x (not its left edge) is
within the 5 px tolerance of the canvas's vertical center line; so the
guide appears when the center crosses into tolerance and disappears on the
next recomputation after it leaves. -/
theorem c8_center_guide_amended (tw : String → ℚ → ℚ) (draggedBlock : TextBlock)
    (canvasWidth canvasHeight : ℚ) (hW : 0 < canvasWidth) :
    canvasWidth / 2 ∈
      (calculateAlignmentGuides tw draggedBlock [draggedBlock]
        canvasWidth canvasHeight).vertical ↔
    |draggedBlock.x + tw draggedBlock.text draggedBlock.fontSize / 2 - canvasWidth / 2| ≤ 5 := by
  have hself : blockVGuides tw draggedBlock draggedBlock = [] := by
    simp [blockVGuides]
  have hv : (calculateAlignmentGuides tw draggedBlock [draggedBlock]
      canvasWidth canvasHeight).vertical =
      guardPush (|draggedBlock.x| ≤ 5) 0 ++
      (guardPush (|draggedBlock.x + tw draggedBlock.text draggedBlock.fontSize -
          canvasWidth| ≤ 5) canvasWidth ++
       guardPush (|draggedBlock.x + tw draggedBlock.text draggedBlock.fontSize / 2 -
          canvasWidth / 2| ≤ 5) (canvasWidth / 2)) := by
    simp [calculateAlignmentGuides, hself]
  rw [hv]
  simp only [List.mem_append, mem_guardPush]
  constructor
  · intro hmem
    rcases hmem with ⟨_, hz⟩ | ⟨_, hz⟩ | ⟨hc, _⟩
    · linarith
    · linarith
    · exact hc
  · intro hc
    refine Or.inr (Or.inr ?_)
    simp [hc]

/-- C8 witness: with the center 30 px from the line, the guide is exactly
as predicted by the center criterion (absent here). -/
theorem c8_center_guide_amended_witness :
    (200 : ℚ) / 2 ∈
      (calculateAlignmentGuides fallbackTextWidth leftEdgeBlock [leftEdgeBlock]
        200 200).vertical ↔
    |leftEdgeBlock.x + fallbackTextWidth leftEdgeBlock.text leftEdgeBlock.fontSize / 2 -
      200 / 2| ≤ 5 :=
  c8_center_guide_amended fallbackTextWidth leftEdgeBlock 200 200 (by decide)

/-- C9: the Compositor's render trace is a deterministic function of its
inputs — it is independent of the stream of Math.random() values the
environment could supply, so two invocations on the same background
reference, layer list, dimensions and image-load outcome produce identical
command traces — and its glitch pass uses the fixed horizontal offsets
textX - 5 (magenta) and textX + 5 (cyan), consuming no randomness. -/
theorem c9_deterministic_render (backgroundImage : Option String)
    (textBlocks : List TextBlock) (width height : ℚ) (loaded : Option ImageDim)
    (rng1 rng2 : List ℚ) (config : TextBlock) (fontObject : Font) :
    renderCompositionTrace backgroundImage textBlocks width height loaded rng1 =
      renderCompositionTrace backgroundImage textBlocks width height loaded rng2 ∧
    (config.effectIds.contains ("glitch") = true → jsTrim config.text ≠ "" →
      fonts.find? (fun f => f.id == config.fontId) = some fontObject →
      Cmd.fillText config.text (config.x - 5) config.y "rgba(255, 0, 255, 0.5)"
        (fontSpecOf config fontObject) noShadow ∈ drawText config ∧
      Cmd.fillText config.text (config.x + 5) config.y "rgba(0, 255, 255, 0.5)"
        (fontSpecOf config fontObject) noShadow ∈ drawText config) := by
  constructor
  · rfl
  · intro hg ht hf
    have hg2 : "glitch" ∈ config.effectIds := by simpa using hg
    have hdt : drawText config = drawTextResolved config fontObject := by
      rw [drawText, if_neg ht, hf]
    rw [hdt]
    constructor
    · simp [drawTextResolved, hg2]
    · simp [drawTextResolved, hg2]

/-- C9 witness: a concrete glitch layer contains the two fixed-offset
glitch fills, at x - 5 and x + 5. -/
theorem c9_deterministic_render_witness :
    renderCompositionTrace none [shadowBlock] 1080 1080 none [] =
      renderCompositionTrace none [shadowBlock] 1080 1080 none [1 / 2] ∧
    Cmd.fillText "Hi" (100 - 5) 100 "rgba(255, 0, 255, 0.5)"
      (fontSpecOf ⟨"Hi", "hina-mincho", ["glitch"], "#FFFFFF", "#000000", 40, 100, 100,
        "main", "main"⟩ ⟨"hina-mincho", "日式明朝", "Hina Mincho", 400⟩) noShadow ∈
      drawText ⟨"Hi", "hina-mincho", ["glitch"], "#FFFFFF", "#000000", 40, 100, 100,
        "main", "main"⟩ ∧
    Cmd.fillText "Hi" (100 + 5) 100 "rgba(0, 255, 255, 0.5)"
      (fontSpecOf ⟨"Hi", "hina-mincho", ["glitch"], "#FFFFFF", "#000000", 40, 100, 100,
        "main", "main"⟩ ⟨"hina-mincho", "日式明朝", "Hina Mincho", 400⟩) noShadow ∈
      drawText ⟨"Hi", "hina-mincho", ["glitch"], "#FFFFFF", "#000000", 40, 100, 100,
        "main", "main"⟩ :=
  ⟨(c9_deterministic_render none [shadowBlock] 1080 1080 none [] [1 / 2]
      shadowBlock ⟨"noto-sans-tc-900", "思源黑體 (黑)", "Noto Sans TC", 900⟩).1,
   (c9_deterministic_render none [] 1080 1080 none [] []
      ⟨"Hi", "hina-mincho", ["glitch"], "#FFFFFF", "#000000", 40, 100, 100, "main", "main"⟩
      ⟨"hina-mincho", "日式明朝", "Hina Mincho", 400⟩).2
      (by decide) (by decide) (by decide)⟩

/-- C10: a resize commit changes only fontSize (always to an integer via
rounding), a move commit changes only x and y, and applying a committed
update through handleTextBlockUpdate replaces exactly the blocks whose id
matches the update, keeping the list length and every other element, in
place. -/
theorem c10_update_frame (textBlock updatedTextBlock : TextBlock) (prev : List TextBlock)
    (initialFontSize delta : ℚ) (tw : String → ℚ → ℚ) (coords dragOffset : Point)
    (canvasWidth canvasHeight : ℚ) :
    ((resizeStep textBlock initialFontSize delta).text = textBlock.text ∧
     (resizeStep textBlock initialFontSize delta).fontId = textBlock.fontId ∧
     (resizeStep textBlock initialFontSize delta).effectIds = textBlock.effectIds ∧
     (resizeStep textBlock initialFontSize delta).color1 = textBlock.color1 ∧
     (resizeStep textBlock initialFontSize delta).color2 = textBlock.color2 ∧
     (resizeStep textBlock initialFontSize delta).x = textBlock.x ∧
     (resizeStep textBlock initialFontSize delta).y = textBlock.y ∧
     (resizeStep textBlock initialFontSize delta).id = textBlock.id ∧
     (resizeStep textBlock initialFontSize delta).type = textBlock.type ∧
     ∃ z : ℤ, (resizeStep textBlock initialFontSize delta).fontSize = (z : ℚ)) ∧
    ((moveStep tw textBlock coords dragOffset canvasWidth canvasHeight).text =
       textBlock.text ∧
     (moveStep tw textBlock coords dragOffset canvasWidth canvasHeight).fontId =
       textBlock.fontId ∧
     (moveStep tw textBlock coords dragOffset canvasWidth canvasHeight).effectIds =
       textBlock.effectIds ∧
     (moveStep tw textBlock coords dragOffset canvasWidth canvasHeight).color1 =
       textBlock.color1 ∧
     (moveStep tw textBlock coords dragOffset canvasWidth canvasHeight).color2 =
       textBlock.color2 ∧
     (moveStep tw textBlock coords dragOffset canvasWidth canvasHeight).fontSize =
       textBlock.fontSize ∧
     (moveStep tw textBlock coords dragOffset canvasWidth canvasHeight).id =
       textBlock.id ∧
     (moveStep tw textBlock coords dragOffset canvasWidth canvasHeight).type =
       textBlock.type) ∧
    ((handleTextBlockUpdate prev updatedTextBlock).length = prev.length ∧
     (∀ tb, tb ∈ prev → tb.id ≠ updatedTextBlock.id →
        tb ∈ handleTextBlockUpdate prev updatedTextBlock) ∧
     (∀ tb, tb ∈ handleTextBlockUpdate prev updatedTextBlock →
        tb = updatedTextBlock ∨ tb ∈ prev) ∧
     (∀ (j : ℕ) (hj : j < prev.length)
        (hj2 : j < (handleTextBlockUpdate prev updatedTextBlock).length),
        (handleTextBlockUpdate prev updatedTextBlock).get ⟨j, hj2⟩ =
          if (prev.get ⟨j, hj⟩).id = updatedTextBlock.id then updatedTextBlock
          else prev.get ⟨j, hj⟩)) := by
  refine ⟨⟨rfl, rfl, rfl, rfl, rfl, rfl, rfl, rfl, rfl, ⟨⌊max 10 (min 500
    (initialFontSize + delta * (2 / 10))) + 1 / 2⌋, rfl⟩⟩,
    ⟨rfl, rfl, rfl, rfl, rfl, rfl, rfl, rfl⟩, ?_, ?_, ?_, ?_⟩
  · simp [handleTextBlockUpdate]
  · intro tb htb hne
    refine List.mem_map.mpr ⟨tb, htb, ?_⟩
    simp [hne]
  · intro tb htb
    rcases List.mem_map.mp htb with ⟨v, hv, heq⟩
    by_cases h : v.id = updatedTextBlock.id
    · rw [if_pos h] at heq
      exact Or.inl heq.symm
    · rw [if_neg h] at heq
      exact Or.inr (heq ▸ hv)
  · intro j hj hj2
    simp [handleTextBlockUpdate]

end FontFX
